import Mathlib

/-!
Shallow embedding of the channel-filter (routing-rule) serializers of
src/engine/apps/public_api/serializers/routes.py, together with theorems
about the behaviour of validation, creation, update and the per-backend
notification-channel configuration merge.

Conventions of the embedding:
* Python dicts whose keys matter are association lists (List (String × _)),
  looked up with lookupKV (first matching key wins, as in a dict).
* Fallible code returns Except ApiError _ ; raising an exception is the
  error constructor, and Except short-circuits exactly where the Python
  exception aborts the request.
* External collaborators (the template validator, the regex validator and
  each messaging backend's validate_channel_filter_data) are parameters:
  the theorems quantify over them.
* Django model instances are plain structures; the Django REST framework
  ModelSerializer update step (setattr of every key of validated_data on
  the instance, then save) is embedded as a record update that overwrites
  exactly the fields whose key is present in the corrected data.
-/

/-- Errors raised by the serializers: rest_framework ValidationError
(carrying a list of messages) and the project's BadRequest (carrying a
detail string). -/
inductive ApiError where
  | validationError : List String → ApiError
  | badRequest : String → ApiError
deriving DecidableEq

/-- A primitive value stored in a deserialized-data dict. -/
inductive Val where
  | str : String → Val
  | int : Nat → Val
deriving DecidableEq

/-- Decidable equality on results, so that concrete runs of the embedded
operations can be checked by evaluation. -/
instance exceptDecEq {ε α : Type} [DecidableEq ε] [DecidableEq α] :
    DecidableEq (Except ε α) := fun x y =>
  match x, y with
  | Except.ok a, Except.ok b =>
    if h : a = b then Decidable.isTrue (by rw [h])
    else Decidable.isFalse (fun he => h (Except.ok.inj he))
  | Except.error a, Except.error b =>
    if h : a = b then Decidable.isTrue (by rw [h])
    else Decidable.isFalse (fun he => h (Except.error.inj he))
  | Except.ok _, Except.error _ => Decidable.isFalse (fun he => Except.noConfusion he)
  | Except.error _, Except.ok _ => Decidable.isFalse (fun he => Except.noConfusion he)

/-- Association-list lookup: the model of Python dict .get / [] access. -/
def lookupKV {α : Type} : List (String × α) → String → Option α
  | [], _ => none
  | (k, v) :: rest, key => if k = key then some v else lookupKV rest key

/-- Deserialized data passed to ChannelFilterSerializer.validate, as a dict. -/
abbrev SData := List (String × Val)

/-- Model of data.get(key) returning a string value (None when the key is
absent or holds a non-string). -/
def getStrVal (d : SData) (k : String) : Option String :=
  match lookupKV d k with
  | some (Val.str s) => some s
  | _ => none

/-- Model of data.get(key) returning an int value (None when the key is
absent or holds a non-int). -/
def getIntVal (d : SData) (k : String) : Option Nat :=
  match lookupKV d k with
  | some (Val.int n) => some n
  | _ => none

/-- Modelled from the spec: the ChannelFilter model (apps/alerts/models,
not under src/) defines the match-type enumeration; the spec gives the
two kinds "regex" and "jinja2" (routing_type is rendered as its label and
parsed from it). The regex kind's internal code. -/
def FILTERING_TERM_TYPE_REGEX : Nat := 0

/-- Modelled from the spec: the jinja2 (template) kind's internal code of
the ChannelFilter match-type enumeration (the model is not under src/). -/
def FILTERING_TERM_TYPE_JINJA2 : Nat := 1

/-- Modelled from the spec: ChannelFilter.FILTERING_TERM_TYPE_CHOICES, the
(code, label) pairs of the match-type enumeration (the model is not under
src/); the spec names exactly the labels "regex" and "jinja2". -/
def FILTERING_TERM_TYPE_CHOICES : List (Nat × String) :=
  [(FILTERING_TERM_TYPE_REGEX, ("regex" : String)),
   (FILTERING_TERM_TYPE_JINJA2, ("jinja2" : String))]

/-- RoutingTypeField.to_internal_value: scans FILTERING_TERM_TYPE_CHOICES
for a choice whose label equals the incoming string and returns its code;
otherwise raises BadRequest("Invalid route type"). -/
def RoutingTypeField.to_internal_value (data : String) : Except ApiError Nat :=
  match FILTERING_TERM_TYPE_CHOICES.find? (fun c => c.2 == data) with
  | some c => Except.ok c.1
  | none => Except.error (ApiError.badRequest ("Invalid route type"))

/-- ChannelFilterSerializer.validate, parametrised by the two external
validators: jinjaOk models valid_jinja_template_for_serializer_method_field
succeeding on the route_template value it is handed (false = it raises
JinjaTemplateError), regexOk models is_regex_valid. The method reads
data.get("routing_regex") and data.get("routing_type") from the dict it is
given, exactly as the source does. -/
def ChannelFilterSerializer.validate (jinjaOk : Option String → Bool)
    (regexOk : String → Bool) (data : SData) : Except ApiError SData :=
  let filtering_term := getStrVal data ("routing_regex")
  let filtering_term_type := getIntVal data ("routing_type")
  if filtering_term_type = some FILTERING_TERM_TYPE_JINJA2 then
    if jinjaOk filtering_term then Except.ok data
    else Except.error (ApiError.validationError [("Jinja template is incorrect")])
  else if filtering_term_type = some FILTERING_TERM_TYPE_REGEX ∨ filtering_term_type = none then
    match filtering_term with
    | some t =>
      if regexOk t then Except.ok data
      else Except.error (ApiError.validationError [("Regular expression is incorrect")])
    | none => Except.ok data
  else Except.error (ApiError.validationError [("Expression type is incorrect")])

/-- The routing fields of an incoming request payload, before field
deserialization (each field absent or a primitive value). Fields other
than routing_type and routing_regex are omitted: they are stored under
source keys ("order", "alert_receive_channel", "escalation_chain", ...)
that the validate method never reads. -/
structure RouteRequest where
  routing_type : Option String
  routing_regex : Option String
deriving DecidableEq

/-- Model of rest_framework Serializer.to_internal_value for the routing
fields of ChannelFilterSerializer: each field's deserialized value is
stored under the field's source name (set_value(ret, field.source_attrs,
validated_value)), so routing_type (source "filtering_term_type") and
routing_regex (source "filtering_term") are keyed by those source names,
not by the field names. -/
def routeInternalData (req : RouteRequest) : Except ApiError SData :=
  match req.routing_type with
  | none =>
    Except.ok (match req.routing_regex with
      | none => []
      | some s => [(("filtering_term" : String), Val.str s)])
  | some label =>
    match RoutingTypeField.to_internal_value label with
    | Except.error e => Except.error e
    | Except.ok code =>
      Except.ok (match req.routing_regex with
        | none => [(("filtering_term_type" : String), Val.int code)]
        | some s => [(("filtering_term_type" : String), Val.int code),
                     (("filtering_term" : String), Val.str s)])

/-- Field deserialization followed by ChannelFilterSerializer.validate, as
rest_framework Serializer.run_validation composes them. -/
def runRouteValidation (jinjaOk : Option String → Bool) (regexOk : String → Bool)
    (req : RouteRequest) : Except ApiError SData :=
  match routeInternalData req with
  | Except.error e => Except.error e
  | Except.ok d => ChannelFilterSerializer.validate jinjaOk regexOk d

/-- The escalation chain referenced by escalation_chain_id, reduced to the
one attribute the team check reads: its owning team (nullable). -/
structure EscalationChain where
  team : Option String
deriving DecidableEq

/-- The integration (AlertReceiveChannel) owning the rule, reduced to the
one attribute the team check reads: its owning team (nullable). The source
resolves it from self.instance.alert_receive_channel on update or from
initial_data integration_id on create; either way the check only compares
teams, so the resolved integration is a parameter here. -/
structure AlertReceiveChannelRec where
  team : Option String
deriving DecidableEq

/-- BaseChannelFilterSerializer.validate_escalation_chain_id: None passes
through; a chain whose team differs from the integration's team raises
BadRequest("Escalation chain must be assigned to the same team as the
integration"); otherwise the chain is returned. -/
def validate_escalation_chain_id (arc : AlertReceiveChannelRec) :
    Option EscalationChain → Except ApiError (Option EscalationChain)
  | none => Except.ok none
  | some chain =>
    if chain.team ≠ arc.team then
      Except.error (ApiError.badRequest
        ("Escalation chain must be assigned to the same team as the integration"))
    else Except.ok (some chain)

/-- Python str.upper() on a channel id, modelled character-wise (channel
ids are ASCII). -/
def strUpper (s : String) : String := String.mk (s.data.map Char.toUpper)

/-- BaseChannelFilterSerializer._validate_slack_channel_id, parametrised by
the organization's cached slack channel ids: a non-null id is uppercased,
then looked up (get(slack_id=...)); a miss raises BadRequest("Slack channel
does not exist"); the uppercased id is returned. -/
def validate_slack_channel_id (cachedChannels : List String) :
    Option String → Except ApiError (Option String)
  | none => Except.ok none
  | some cid =>
    if cachedChannels.contains (strUpper cid) then Except.ok (some (strUpper cid))
    else Except.error (ApiError.badRequest ("Slack channel does not exist"))

/-- BaseChannelFilterSerializer._validate_telegram_channel, parametrised by
the organization's telegram channel connectors (by public_primary_key): a
non-null id must resolve, else BadRequest("Telegram channel does not
exist"); the resolved channel is represented by its key. A null id returns
None. -/
def validate_telegram_channel (connectors : List String) :
    Option String → Except ApiError (Option String)
  | none => Except.ok none
  | some tid =>
    if connectors.contains tid then Except.ok (some tid)
    else Except.error (ApiError.badRequest ("Telegram channel does not exist"))

/-- One backend's sub-object inside notification_backends: the dict built
by _correct_validated_data with the optional keys "channel" and "enabled"
(an Option field is some exactly when the key is present; the channel value
itself is nullable). -/
structure NotificationBackendData where
  channel : Option (Option String)
  enabled : Option Bool
deriving DecidableEq

/-- The empty sub-object (no keys). -/
def emptyNBData : NotificationBackendData := { channel := none, enabled := none }

/-- Python dict union a | b on a notification-backend sub-object: keys of b
override keys of a; keys of a not present in b are kept. -/
def NotificationBackendData.union (a b : NotificationBackendData) :
    NotificationBackendData :=
  { channel := match b.channel with | some v => some v | none => a.channel
    enabled := match b.enabled with | some v => some v | none => a.enabled }

/-- A messaging backend from the registry: its serializer field slug and
its validate_channel_filter_data hook (backend-specific validation of the
assembled sub-object; some e models raising e, none models success). The
organization argument of the hook is absorbed into the function. -/
structure Backend where
  slug : String
  validate_channel_filter_data : NotificationBackendData → Option ApiError

/-- The messaging-backend registry: what get_messaging_backends() yields,
pairs of backend id and backend-or-None (None entries are skipped). -/
abbrev BackendRegistry := List (String × Option Backend)

/-- Model of get_messaging_backend_from_id: registry lookup by backend id. -/
def get_messaging_backend_from_id (reg : BackendRegistry) (backendId : String) :
    Option Backend :=
  match lookupKV reg backendId with
  | some (some b) => some b
  | _ => none

/-- A per-backend sub-payload of the request ("slack", "telegram" or a
registered slug), restricted to the keys the serializer reads: "channel_id"
or "id" (nullable value) and "enabled". An Option field is some exactly
when the key is present. -/
structure BackendField where
  id : Option (Option String)
  enabled : Option Bool
deriving DecidableEq

/-- Python truthiness of the sub-payload dict: an empty dict is falsy. -/
def BackendField.isEmpty (f : BackendField) : Bool :=
  f.id.isNone && f.enabled.isNone

/-- The slack sub-payload: key "channel_id" (nullable) and key "enabled"
(already coerced through bool(...) by the embedding). -/
structure SlackField where
  channel_id : Option (Option String)
  enabled : Option Bool
deriving DecidableEq

/-- Python truthiness of the slack sub-payload: an empty dict is falsy. -/
def SlackField.isEmpty (f : SlackField) : Bool :=
  f.channel_id.isNone && f.enabled.isNone

/-- The backend-related part of validated_data entering
_correct_validated_data: the "slack" and "telegram" sub-payloads and the
sub-payloads keyed by registered backend slugs (an absent key is none; a
present key holds the dict, possibly empty). -/
structure BackendPayloads where
  slack : Option SlackField
  telegram : Option BackendField
  backends : List (String × BackendField)
deriving DecidableEq

/-- The slack part of _correct_validated_data: pop "slack" (default empty,
falsy skips); if "channel_id" is present, validate it (may raise) and set
validated_data["slack_channel_id"]; if "enabled" is present set
validated_data["notify_in_slack"]. Returns the (slack_channel_id,
notify_in_slack) writes (none = key not written). -/
def slackCorrection (cachedChannels : List String) :
    Option SlackField → Except ApiError (Option (Option String) × Option Bool)
  | none => Except.ok (none, none)
  | some f =>
    if f.isEmpty then Except.ok (none, none)
    else
      match f.channel_id with
      | none => Except.ok (none, f.enabled)
      | some v =>
        match validate_slack_channel_id cachedChannels v with
        | Except.error e => Except.error e
        | Except.ok r => Except.ok (some r, f.enabled)

/-- The telegram part of _correct_validated_data: pop "telegram" (falsy
skips); if "id" is present, resolve it (may raise) and set
validated_data["telegram_channel"]; if "enabled" is present set
validated_data["notify_in_telegram"]. -/
def telegramCorrection (connectors : List String) :
    Option BackendField → Except ApiError (Option (Option String) × Option Bool)
  | none => Except.ok (none, none)
  | some f =>
    if f.isEmpty then Except.ok (none, none)
    else
      match f.id with
      | none => Except.ok (none, f.enabled)
      | some v =>
        match validate_telegram_channel connectors v with
        | Except.error e => Except.error e
        | Except.ok r => Except.ok (some r, f.enabled)

/-- The generic-backend loop of _correct_validated_data: for each registry
entry in order, skip None backends, pop the slug's sub-payload (absent or
falsy skips), build the sub-object from the "id" and "enabled" keys, run
the backend's validate_channel_filter_data (raising aborts), and record the
sub-object under the backend id. The payload lookup models
validated_data.pop(field, dict()) (exact when registered slugs are
distinct). -/
def collectBackends : BackendRegistry → List (String × BackendField) →
    Except ApiError (List (String × NotificationBackendData))
  | [], _ => Except.ok []
  | (_, none) :: rest, bfs => collectBackends rest bfs
  | (backendId, some b) :: rest, bfs =>
    match lookupKV bfs b.slug with
    | none => collectBackends rest bfs
    | some f =>
      if f.isEmpty then collectBackends rest bfs
      else
        match b.validate_channel_filter_data { channel := f.id, enabled := f.enabled } with
        | some e => Except.error e
        | none =>
          match collectBackends rest bfs with
          | Except.error e => Except.error e
          | Except.ok tail =>
            Except.ok ((backendId, { channel := f.id, enabled := f.enabled }) :: tail)

/-- The field writes produced by _correct_validated_data (an Option field
is some exactly when the corresponding key was added to validated_data;
notification_backends is added only when the collected dict is nonempty). -/
structure CorrectedFields where
  slack_channel_id : Option (Option String)
  notify_in_slack : Option Bool
  telegram_channel : Option (Option String)
  notify_in_telegram : Option Bool
  notification_backends : Option (List (String × NotificationBackendData))
deriving DecidableEq

/-- BaseChannelFilterSerializer._correct_validated_data: slack, telegram
and the generic-backend loop in source order, assembling the writes. -/
def correct_validated_data (reg : BackendRegistry) (cachedChannels : List String)
    (connectors : List String) (p : BackendPayloads) :
    Except ApiError CorrectedFields :=
  match slackCorrection cachedChannels p.slack with
  | Except.error e => Except.error e
  | Except.ok s =>
    match telegramCorrection connectors p.telegram with
    | Except.error e => Except.error e
    | Except.ok t =>
      match collectBackends reg p.backends with
      | Except.error e => Except.error e
      | Except.ok nbs =>
        Except.ok
          { slack_channel_id := s.1
            notify_in_slack := s.2
            telegram_channel := t.1
            notify_in_telegram := t.2
            notification_backends := if nbs.isEmpty then none else some nbs }

/-- The body of the _update_notification_backends loop for one entry of
the incoming dict: when get_messaging_backend_from_id knows the backend id,
the sub-object becomes current.get(backend_id, dict()) | incoming (the
stored sub-object merged under the incoming keys); an unknown id is left
as it came (the loop's continue). -/
def mergeBackendEntry (reg : BackendRegistry)
    (current : List (String × NotificationBackendData)) (backendId : String)
    (v : NotificationBackendData) : NotificationBackendData :=
  match get_messaging_backend_from_id reg backendId with
  | none => v
  | some _ =>
    NotificationBackendData.union ((lookupKV current backendId).getD emptyNBData) v

/-- BaseChannelFilterSerializer._update_notification_backends: apply
mergeBackendEntry to every entry of the incoming dict. -/
def update_notification_backends (reg : BackendRegistry)
    (current incoming : List (String × NotificationBackendData)) :
    List (String × NotificationBackendData) :=
  incoming.map (fun e => (e.1, mergeBackendEntry reg current e.1 e.2))

/-- The backend ids that _correct_validated_data stores into
notification_backends for a given request: the registered (non-None)
backends whose slug carries a nonempty sub-payload, in registry order. -/
def mentionedBackendIds (reg : BackendRegistry)
    (bfs : List (String × BackendField)) : List String :=
  reg.filterMap (fun e =>
    match e.2 with
    | none => none
    | some b =>
      match lookupKV bfs b.slug with
      | none => none
      | some f => if f.isEmpty then none else some e.1)

/-- A ChannelFilter row, restricted to the columns the serializers read or
write. -/
structure ChannelFilter where
  escalation_chain : Option String
  filtering_term_type : Option Nat
  filtering_term : Option String
  order : Int
  is_default : Bool
  slack_channel_id : Option String
  notify_in_slack : Bool
  telegram_channel : Option String
  notify_in_telegram : Bool
  notification_backends : Option (List (String × NotificationBackendData))
deriving DecidableEq

/-- Python truthiness of validated_data.get("notification_backends"): the
key must be present and hold a nonempty dict. -/
def truthyNB : Option (List (String × NotificationBackendData)) → Bool
  | some (_ :: _) => true
  | _ => false

/-- Modelled from the spec: OrderedModelSerializerMixin._validate_manual_order
(common/api_helpers/mixins.py, not under src/). Manual order uses the
caller-supplied position verbatim; it must not collide with an existing
position for the integration, and a collision fails with ValidationError. -/
def validate_manual_order (existingPositions : List Int) :
    Option Int → Except ApiError Unit
  | none => Except.ok ()
  | some p =>
    if existingPositions.contains p then
      Except.error (ApiError.validationError
        [("Position collides with an existing rule of the integration")])
    else Except.ok ()

/-- Modelled from the spec: OrderedModelSerializerMixin._change_position on
an update (common/api_helpers/mixins.py, not under src/). A supplied
position moves the instance to that insertion index among its non-catch-all
siblings, clamped to the valid range; an omitted position leaves the
instance's order unchanged. siblingCount is the number of non-catch-all
rules of the integration. -/
def change_position_order (siblingCount : Nat) (currentOrder : Int) :
    Option Int → Int
  | none => currentOrder
  | some p => min (max p 0) (Int.ofNat siblingCount)

/-- The validated_data reaching ChannelFilterUpdateSerializer.update, keyed
by source names (an Option field is some exactly when the key is present):
the backend sub-payloads, escalation_chain, filtering_term,
filtering_term_type, order, and the always-present manual_order flag. -/
structure UpdateData where
  payloads : BackendPayloads
  escalation_chain : Option String
  filtering_term : Option String
  filtering_term_type : Option Nat
  order : Option Int
  manual_order : Bool
deriving DecidableEq

/-- The rest_framework ModelSerializer.update step for
ChannelFilterUpdateSerializer: setattr(instance, key, value) for every key
of validated_data, then save. newOrder is the instance's order after the
branch-dependent position handling; nb is the value of the
notification_backends key if present. -/
def applyUpdateFields (inst : ChannelFilter) (d : UpdateData) (c : CorrectedFields)
    (newOrder : Int) (nb : Option (List (String × NotificationBackendData))) :
    ChannelFilter :=
  { inst with
    escalation_chain :=
      match d.escalation_chain with | some e => some e | none => inst.escalation_chain
    filtering_term :=
      match d.filtering_term with | some t => some t | none => inst.filtering_term
    filtering_term_type :=
      match d.filtering_term_type with | some t => some t | none => inst.filtering_term_type
    order := newOrder
    slack_channel_id := (c.slack_channel_id).getD inst.slack_channel_id
    notify_in_slack := (c.notify_in_slack).getD inst.notify_in_slack
    telegram_channel := (c.telegram_channel).getD inst.telegram_channel
    notify_in_telegram := (c.notify_in_telegram).getD inst.notify_in_telegram
    notification_backends :=
      match nb with | some l => some l | none => inst.notification_backends }

/-- ChannelFilterUpdateSerializer.update: _correct_validated_data, then the
manual/non-manual order branch (the mixin operations are modelled from the
spec, see validate_manual_order and change_position_order), then the
notification_backends merge when the key is present and truthy, then the
ModelSerializer field writes. siblingPositions are the positions of the
integration's other non-catch-all rules (used by the manual-order collision
check); siblingCount bounds the clamp of the non-manual move. -/
def ChannelFilterUpdateSerializer.update (reg : BackendRegistry)
    (cachedChannels connectors : List String) (siblingPositions : List Int)
    (siblingCount : Nat) (inst : ChannelFilter) (d : UpdateData) :
    Except ApiError ChannelFilter :=
  match correct_validated_data reg cachedChannels connectors d.payloads with
  | Except.error e => Except.error e
  | Except.ok c =>
    match (if d.manual_order then validate_manual_order siblingPositions d.order
           else Except.ok ()) with
    | Except.error e => Except.error e
    | Except.ok _ =>
      let newOrder :=
        if d.manual_order then
          match d.order with | some o => o | none => inst.order
        else change_position_order siblingCount inst.order d.order
      let nb :=
        if truthyNB c.notification_backends then
          some (update_notification_backends reg
            ((inst.notification_backends).getD []) ((c.notification_backends).getD []))
        else c.notification_backends
      Except.ok (applyUpdateFields inst d c newOrder nb)

/-- The validated_data reaching DefaultChannelFilterSerializer.update: its
Meta.fields expose only id (read-only), slack, telegram, the registered
backend slugs and escalation_chain_id (nullable), so only the backend
sub-payloads and escalation_chain can be present. -/
structure DefaultUpdateData where
  payloads : BackendPayloads
  escalation_chain : Option (Option String)
deriving DecidableEq

/-- DefaultChannelFilterSerializer.update: _correct_validated_data, the
notification_backends merge when present and truthy, then the
ModelSerializer field writes (no order handling; only the fields of this
serializer can be written). -/
def DefaultChannelFilterSerializer.update (reg : BackendRegistry)
    (cachedChannels connectors : List String) (inst : ChannelFilter)
    (d : DefaultUpdateData) : Except ApiError ChannelFilter :=
  match correct_validated_data reg cachedChannels connectors d.payloads with
  | Except.error e => Except.error e
  | Except.ok c =>
    let nb :=
      if truthyNB c.notification_backends then
        some (update_notification_backends reg
          ((inst.notification_backends).getD []) ((c.notification_backends).getD []))
      else c.notification_backends
    Except.ok
      { inst with
        escalation_chain := (d.escalation_chain).getD inst.escalation_chain
        slack_channel_id := (c.slack_channel_id).getD inst.slack_channel_id
        notify_in_slack := (c.notify_in_slack).getD inst.notify_in_slack
        telegram_channel := (c.telegram_channel).getD inst.telegram_channel
        notify_in_telegram := (c.notify_in_telegram).getD inst.notify_in_telegram
        notification_backends :=
          match nb with | some l => some l | none => inst.notification_backends }

/-- Insertion of an element at an index of a list, appending when the index
is beyond the end. -/
def insertAt {α : Type} : Nat → α → List α → List α
  | _, a, [] => [a]
  | 0, a, l => a :: l
  | n + 1, a, x :: xs => x :: insertAt n a xs

/-- The non-catch-all rules of one integration in evaluation order (the
rule at list index i has position i; positions are therefore unique and
contiguous), together with the integration's single catch-all rule, which
is always evaluated last. Rules are identified by their public id. -/
structure IntegrationRules where
  rules : List String
  catchAll : String
deriving DecidableEq

/-- The full evaluation order of an integration's rules: the non-catch-all
rules, then the catch-all. -/
def IntegrationRules.fullOrder (s : IntegrationRules) : List String :=
  s.rules ++ [s.catchAll]

/-- Modelled from the spec: the non-manual-order branch of
ChannelFilterSerializer.create. _validate_order and _change_position of
OrderedModelSerializerMixin and the ordered-model datastore are not under
src/; the spec states that a supplied position is an insertion index among
non-catch-all siblings, clamped to the valid range when out of bounds,
defaulting to end-of-list (immediately before the catch-all) when omitted,
with all siblings at or after the index shifted by +1. -/
def create_non_manual_order (s : IntegrationRules) (position : Option Int)
    (newId : String) : IntegrationRules :=
  let requested := match position with
    | none => Int.ofNat s.rules.length
    | some p => p
  let idx := min (max requested 0).toNat s.rules.length
  { s with rules := insertAt idx newId s.rules }

/-- The non-catch-all rules of one integration with explicit positions (as
used by the manual-order branch, where the caller-supplied position is
stored verbatim and need not be contiguous), plus the catch-all rule. -/
structure OrderedRules where
  rules : List (String × Int)
  catchAll : String
deriving DecidableEq

/-- Modelled from the spec: the manual-order branch of
ChannelFilterSerializer.create (_validate_manual_order of
OrderedModelSerializerMixin is not under src/): the supplied position is
checked against the existing positions of the integration's rules and used
verbatim; a collision fails with ValidationError before anything is
persisted. -/
def create_manual_order (s : OrderedRules) (position : Int) (newId : String) :
    Except ApiError OrderedRules :=
  match validate_manual_order (s.rules.map Prod.snd) (some position) with
  | Except.error e => Except.error e
  | Except.ok _ => Except.ok { s with rules := s.rules ++ [(newId, position)] }

/-- The manual-order create as a state step: the resulting store plus the
error, the store being unchanged when validation fails (the spec: no
partial writes, a failing validation aborts the entire write before
persistence). -/
def create_manual_order_step (s : OrderedRules) (position : Int) (newId : String) :
    OrderedRules × Option ApiError :=
  match create_manual_order s position newId with
  | Except.ok s2 => (s2, none)
  | Except.error e => (s, some e)

/-- Removal of every entry of a given slug from the request's backend
sub-payloads (used to compare a request carrying an empty sub-payload for
a slug with the request not mentioning that slug at all). -/
def removeSlug (slug : String) (bfs : List (String × BackendField)) :
    List (String × BackendField) :=
  bfs.filter (fun e => !(e.1 == slug))

/-- A catch-all rule fixture: jinja2 match data, position 5, default flag
set, no notification configuration. -/
def c8inst : ChannelFilter :=
  { escalation_chain := none, filtering_term_type := some 0,
    filtering_term := some (".*"), order := 5, is_default := true,
    slack_channel_id := none, notify_in_slack := false, telegram_channel := none,
    notify_in_telegram := false, notification_backends := none }

/-- An update of the catch-all that sets only the escalation chain. -/
def c8data : DefaultUpdateData :=
  { payloads := { slack := none, telegram := none, backends := [] },
    escalation_chain := some (some ("E")) }

/-- The expected result of applying c8data to c8inst. -/
def c8out : ChannelFilter := { c8inst with escalation_chain := some ("E") }

/-- A rule fixture with no notification configuration. -/
def c9inst : ChannelFilter :=
  { escalation_chain := none, filtering_term_type := none, filtering_term := none,
    order := 0, is_default := false, slack_channel_id := none, notify_in_slack := false,
    telegram_channel := none, notify_in_telegram := false, notification_backends := none }

/-- An update supplying a lowercase slack channel id. -/
def c9data : UpdateData :=
  { payloads :=
      { slack := some { channel_id := some (some ("c123")), enabled := none }
        telegram := none
        backends := [] }
    escalation_chain := none
    filtering_term := none
    filtering_term_type := none
    order := none
    manual_order := false }

/-- The expected result: the uppercased id is stored. -/
def c9out : ChannelFilter := { c9inst with slack_channel_id := some ("C123") }

/-- A rule fixture whose slack channel id is "C123" with slack enabled. -/
def c2inst : ChannelFilter :=
  { escalation_chain := none, filtering_term_type := none, filtering_term := none,
    order := 0, is_default := false, slack_channel_id := some ("C123"),
    notify_in_slack := true, telegram_channel := none, notify_in_telegram := false,
    notification_backends := none }

/-- An update supplying only slack.enabled = false. -/
def c2data : UpdateData :=
  { payloads :=
      { slack := some { channel_id := none, enabled := some false }
        telegram := none
        backends := [] }
    escalation_chain := none
    filtering_term := none
    filtering_term_type := none
    order := none
    manual_order := false }

/-- The expected result: channel id kept, enabled flag flipped. -/
def c2out : ChannelFilter := { c2inst with notify_in_slack := false }

/-- A registry of two enabled backends with always-accepting validators. -/
def c1reg : BackendRegistry :=
  [(("BID_A" : String),
    some { slug := ("backend_a"), validate_channel_filter_data := fun _ => none }),
   (("BID_B" : String),
    some { slug := ("backend_b"), validate_channel_filter_data := fun _ => none })]

/-- A rule fixture with stored configuration for backend BID_A only. -/
def c1inst : ChannelFilter :=
  { escalation_chain := none, filtering_term_type := none, filtering_term := none,
    order := 0, is_default := false, slack_channel_id := none, notify_in_slack := false,
    telegram_channel := none, notify_in_telegram := false,
    notification_backends := some [(("BID_A" : String),
      { channel := some (some ("XA")), enabled := some true })] }

/-- An update mentioning only backend_b (BID_A is absent from the request). -/
def c1data : UpdateData :=
  { payloads :=
      { slack := none
        telegram := none
        backends := [(("backend_b" : String),
          { id := some (some ("XB")), enabled := none })] }
    escalation_chain := none
    filtering_term := none
    filtering_term_type := none
    order := none
    manual_order := false }

/-- An update mentioning no backend at all. -/
def c1wdata : UpdateData :=
  { payloads := { slack := none, telegram := none, backends := [] }
    escalation_chain := none
    filtering_term := none
    filtering_term_type := none
    order := none
    manual_order := false }

/-- The result of applying c1data to c1inst: only BID_B remains stored. -/
def c1out : ChannelFilter :=
  { c1inst with notification_backends := some [(("BID_B" : String),
      { channel := some (some ("XB")), enabled := none })] }

/-- A registry of two enabled backends with always-accepting validators. -/
def c10reg : BackendRegistry :=
  [(("BID_A" : String),
    some { slug := ("backend_a"), validate_channel_filter_data := fun _ => none }),
   (("BID_B" : String),
    some { slug := ("backend_b"), validate_channel_filter_data := fun _ => none })]

/-- A rule fixture with stored configuration for backend BID_A only. -/
def c10inst : ChannelFilter :=
  { escalation_chain := none, filtering_term_type := none, filtering_term := none,
    order := 0, is_default := false, slack_channel_id := none, notify_in_slack := false,
    telegram_channel := none, notify_in_telegram := false,
    notification_backends := some [(("BID_A" : String),
      { channel := some (some ("XA")), enabled := some true })] }

/-- An update supplying an empty sub-payload for backend_a alongside a
nonempty sub-payload for backend_b. -/
def c10data : UpdateData :=
  { payloads :=
      { slack := none
        telegram := none
        backends := [(("backend_a" : String), { id := none, enabled := none }),
          (("backend_b" : String), { id := some (some ("XB")), enabled := none })] }
    escalation_chain := none
    filtering_term := none
    filtering_term_type := none
    order := none
    manual_order := false }

theorem lookupKV_eq_none_of_not_mem {α : Type} (l : List (String × α)) (k : String)
    (h : k ∉ l.map Prod.fst) : lookupKV l k = none := by
  induction l with
  | nil => rfl
  | cons e rest ih =>
    obtain ⟨k2, v⟩ := e
    simp only [List.map_cons, List.mem_cons, not_or] at h
    have hk2 : k2 ≠ k := fun he => h.1 he.symm
    simp only [lookupKV, if_neg hk2]
    exact ih h.2

theorem lookupKV_eq_some_of_mem_nodup {α : Type} (l : List (String × α)) (k : String)
    (v : α) (hnd : (l.map Prod.fst).Nodup) (hm : (k, v) ∈ l) : lookupKV l k = some v := by
  induction l with
  | nil => cases hm
  | cons e rest ih =>
    obtain ⟨k2, v2⟩ := e
    simp only [List.map_cons, List.nodup_cons] at hnd
    rcases List.mem_cons.mp hm with heq | hmem
    · obtain ⟨h1, h2⟩ := Prod.mk.injEq .. ▸ heq.symm
      simp [lookupKV, h1, h2]
    · have hk2 : k2 ≠ k := by
        intro he
        exact hnd.1 (he ▸ List.mem_map.mpr ⟨(k, v), hmem, rfl⟩)
      simp only [lookupKV, if_neg hk2]
      exact ih hnd.2 hmem

theorem lookupKV_map_entry {α β : Type} (l : List (String × α))
    (g : String → α → β) (k : String) :
    lookupKV (l.map (fun e => (e.1, g e.1 e.2))) k = (lookupKV l k).map (g k) := by
  induction l with
  | nil => rfl
  | cons e rest ih =>
    obtain ⟨k2, v⟩ := e
    by_cases hk : k2 = k
    · subst hk
      simp [lookupKV]
    · simp only [List.map_cons, lookupKV, if_neg hk]
      exact ih

theorem map_fst_map_entry {α β : Type} (l : List (String × α)) (g : String → α → β) :
    (l.map (fun e => (e.1, g e.1 e.2))).map Prod.fst = l.map Prod.fst := by
  induction l with
  | nil => rfl
  | cons e rest ih => simp [ih]

theorem insertAt_length {α : Type} (l : List α) (i : Nat) (a : α) :
    (insertAt i a l).length = l.length + 1 := by
  induction l generalizing i with
  | nil => cases i <;> rfl
  | cons x xs ih =>
    cases i with
    | zero => rfl
    | succ n => simp [insertAt, ih]

theorem insertAt_get_self {α : Type} (l : List α) (i : Nat) (a : α)
    (h : i ≤ l.length) : (insertAt i a l).get? i = some a := by
  induction l generalizing i with
  | nil =>
    have : i = 0 := Nat.le_zero.mp h
    subst this
    rfl
  | cons x xs ih =>
    cases i with
    | zero => rfl
    | succ n =>
      simp only [insertAt, List.get?]
      exact ih n (Nat.le_of_succ_le_succ h)

theorem insertAt_get_lt {α : Type} (l : List α) (i j : Nat) (a : α)
    (hj : j < i) (hi : i ≤ l.length) : (insertAt i a l).get? j = l.get? j := by
  induction l generalizing i j with
  | nil =>
    have : i = 0 := Nat.le_zero.mp hi
    omega
  | cons x xs ih =>
    cases i with
    | zero => omega
    | succ n =>
      cases j with
      | zero => rfl
      | succ m =>
        simp only [insertAt, List.get?]
        exact ih n m (Nat.lt_of_succ_lt_succ hj) (Nat.le_of_succ_le_succ hi)

theorem insertAt_get_ge {α : Type} (l : List α) (i j : Nat) (a : α)
    (hj : i ≤ j) : (insertAt i a l).get? (j + 1) = l.get? j := by
  induction l generalizing i j with
  | nil =>
    cases i <;> simp [insertAt, List.get?]
  | cons x xs ih =>
    cases i with
    | zero => rfl
    | succ n =>
      cases j with
      | zero => omega
      | succ m =>
        simp only [insertAt, List.get?]
        exact ih n m (Nat.le_of_succ_le_succ hj)

theorem insertAt_of_length_le {α : Type} (l : List α) (i : Nat) (a : α)
    (h : l.length ≤ i) : insertAt i a l = l ++ [a] := by
  induction l generalizing i with
  | nil => cases i <;> rfl
  | cons x xs ih =>
    cases i with
    | zero => simp at h
    | succ n =>
      simp only [insertAt, List.cons_append, List.cons.injEq, true_and]
      exact ih n (Nat.le_of_succ_le_succ h)

theorem collectBackends_keys (reg : BackendRegistry)
    (bfs : List (String × BackendField)) (l : List (String × NotificationBackendData))
    (h : collectBackends reg bfs = Except.ok l) :
    l.map Prod.fst = mentionedBackendIds reg bfs := by
  induction reg generalizing l with
  | nil =>
    simp only [collectBackends, Except.ok.injEq] at h
    subst h
    rfl
  | cons e rest ih =>
    obtain ⟨bid, ob⟩ := e
    cases ob with
    | none =>
      simp only [collectBackends] at h
      simp only [mentionedBackendIds, List.filterMap_cons]
      exact ih l h
    | some b =>
      cases hlk : lookupKV bfs b.slug with
      | none =>
        simp only [collectBackends, hlk] at h
        simp only [mentionedBackendIds, List.filterMap_cons, hlk]
        exact ih l h
      | some f =>
        by_cases he : f.isEmpty = true
        · simp only [collectBackends, hlk, if_pos he] at h
          simp only [mentionedBackendIds, List.filterMap_cons, hlk, if_pos he]
          exact ih l h
        · simp only [collectBackends, hlk, if_neg he] at h
          simp only [mentionedBackendIds, List.filterMap_cons, hlk, if_neg he]
          cases hv : b.validate_channel_filter_data { channel := f.id, enabled := f.enabled } with
          | some e2 => rw [hv] at h; cases h
          | none =>
            rw [hv] at h
            cases hrec : collectBackends rest bfs with
            | error e2 => rw [hrec] at h; cases h
            | ok tail =>
              rw [hrec] at h
              simp only [Except.ok.injEq] at h
              subst h
              simp only [List.map_cons, List.cons.injEq, true_and]
              have := ih tail hrec
              simpa [mentionedBackendIds] using this

theorem collectBackends_entry (reg : BackendRegistry)
    (bfs : List (String × BackendField)) (bid : String) (b : Backend)
    (f : BackendField) (l : List (String × NotificationBackendData))
    (hnd : (reg.map Prod.fst).Nodup) (hm : (bid, some b) ∈ reg)
    (hlk : lookupKV bfs b.slug = some f) (hne : f.isEmpty = false)
    (h : collectBackends reg bfs = Except.ok l) :
    lookupKV l bid = some { channel := f.id, enabled := f.enabled } := by
  induction reg generalizing l with
  | nil => cases hm
  | cons e rest ih =>
    obtain ⟨bid2, ob⟩ := e
    simp only [List.map_cons, List.nodup_cons] at hnd
    rcases List.mem_cons.mp hm with heq | hmem
    · have hbid : bid2 = bid := congrArg Prod.fst heq.symm
      have hob : ob = some b := congrArg Prod.snd heq.symm
      subst hbid
      subst hob
      have hne2 : ¬ f.isEmpty = true := by simp [hne]
      simp only [collectBackends, hlk, if_neg hne2] at h
      cases hv : b.validate_channel_filter_data { channel := f.id, enabled := f.enabled } with
      | some e2 => rw [hv] at h; cases h
      | none =>
        rw [hv] at h
        cases hrec : collectBackends rest bfs with
        | error e2 => rw [hrec] at h; cases h
        | ok tail =>
          rw [hrec] at h
          simp only [Except.ok.injEq] at h
          subst h
          simp [lookupKV]
    · have hbid : bid2 ≠ bid := by
        intro he
        exact hnd.1 (he ▸ List.mem_map.mpr ⟨(bid, some b), hmem, rfl⟩)
      cases ob with
      | none =>
        simp only [collectBackends] at h
        exact ih l hnd.2 hmem h
      | some b2 =>
        cases hlk2 : lookupKV bfs b2.slug with
        | none =>
          simp only [collectBackends, hlk2] at h
          exact ih l hnd.2 hmem h
        | some f2 =>
          by_cases he2 : f2.isEmpty = true
          · simp only [collectBackends, hlk2, if_pos he2] at h
            exact ih l hnd.2 hmem h
          · simp only [collectBackends, hlk2, if_neg he2] at h
            cases hv : b2.validate_channel_filter_data { channel := f2.id, enabled := f2.enabled } with
            | some e2 => rw [hv] at h; cases h
            | none =>
              rw [hv] at h
              cases hrec : collectBackends rest bfs with
              | error e2 => rw [hrec] at h; cases h
              | ok tail =>
                rw [hrec] at h
                simp only [Except.ok.injEq] at h
                subst h
                simp only [lookupKV, if_neg hbid]
                exact ih tail hnd.2 hmem hrec

theorem correct_validated_data_ok_inv (reg : BackendRegistry)
    (cachedChannels connectors : List String) (p : BackendPayloads)
    (c : CorrectedFields)
    (h : correct_validated_data reg cachedChannels connectors p = Except.ok c) :
    ∃ s t nbs, slackCorrection cachedChannels p.slack = Except.ok s
      ∧ telegramCorrection connectors p.telegram = Except.ok t
      ∧ collectBackends reg p.backends = Except.ok nbs
      ∧ c = { slack_channel_id := s.1, notify_in_slack := s.2,
              telegram_channel := t.1, notify_in_telegram := t.2,
              notification_backends := if nbs.isEmpty then none else some nbs } := by
  unfold correct_validated_data at h
  cases hs : slackCorrection cachedChannels p.slack with
  | error e => rw [hs] at h; cases h
  | ok s =>
    rw [hs] at h
    cases ht : telegramCorrection connectors p.telegram with
    | error e => rw [ht] at h; cases h
    | ok t =>
      rw [ht] at h
      cases hnb : collectBackends reg p.backends with
      | error e => rw [hnb] at h; cases h
      | ok nbs =>
        rw [hnb] at h
        simp only [Except.ok.injEq] at h
        exact ⟨s, t, nbs, rfl, rfl, rfl, h.symm⟩

theorem channel_filter_update_ok_inv (reg : BackendRegistry)
    (cachedChannels connectors : List String) (siblingPositions : List Int)
    (siblingCount : Nat) (inst : ChannelFilter) (d : UpdateData) (cf : ChannelFilter)
    (h : ChannelFilterUpdateSerializer.update reg cachedChannels connectors
      siblingPositions siblingCount inst d = Except.ok cf) :
    ∃ c, correct_validated_data reg cachedChannels connectors d.payloads = Except.ok c
      ∧ cf = applyUpdateFields inst d c
          (if d.manual_order then
            match d.order with | some o => o | none => inst.order
           else change_position_order siblingCount inst.order d.order)
          (if truthyNB c.notification_backends then
            some (update_notification_backends reg
              ((inst.notification_backends).getD [])
              ((c.notification_backends).getD []))
           else c.notification_backends) := by
  unfold ChannelFilterUpdateSerializer.update at h
  cases hc : correct_validated_data reg cachedChannels connectors d.payloads with
  | error e => rw [hc] at h; cases h
  | ok c =>
    rw [hc] at h
    cases hg : (if d.manual_order then
        validate_manual_order siblingPositions d.order else Except.ok ()) with
    | error e => rw [hg] at h; cases h
    | ok u =>
      rw [hg] at h
      simp only [Except.ok.injEq] at h
      exact ⟨c, rfl, h.symm⟩

theorem slackCorrection_channel_id_absent (cachedChannels : List String)
    (en : Option Bool) :
    slackCorrection cachedChannels (some { channel_id := none, enabled := en }) =
      Except.ok (none, en) := by
  cases en <;> rfl


/-- C5: the spec claims validate enforces match-expression validity by
match_type (jinja2 parse failure rejected with a template error, regex
compile failure with a regex error). In fact the checks never fire: the
code reads data.get("routing_regex") and data.get("routing_type"), but the
deserialized data is keyed by the fields' source names "filtering_term"
and "filtering_term_type", so both reads are None and validate accepts
every payload regardless of the external validators. First conjunct:
validate is the identity whenever the dict lacks the two keys it reads;
second: field deserialization never produces those keys; third: the
concrete failing input (match_type jinja2, an expression the template
validator rejects) passes validation. -/
theorem c5_match_expression_validation_never_fires :
    (∀ (jinjaOk : Option String → Bool) (regexOk : String → Bool) (d : SData),
      getStrVal d ("routing_regex") = none → getIntVal d ("routing_type") = none →
      ChannelFilterSerializer.validate jinjaOk regexOk d = Except.ok d)
    ∧ (∀ (req : RouteRequest) (d : SData), routeInternalData req = Except.ok d →
      getStrVal d ("routing_regex") = none ∧ getIntVal d ("routing_type") = none)
    ∧ runRouteValidation (fun _ => false) (fun _ => false)
        { routing_type := some ("jinja2"), routing_regex := some ("\x7b\x7b unclosed") }
      = Except.ok [(("filtering_term_type" : String), Val.int 1),
                   (("filtering_term" : String), Val.str ("\x7b\x7b unclosed"))] := by
  refine ⟨?_, ?_, by decide⟩
  · intro jinjaOk regexOk d h1 h2
    simp [ChannelFilterSerializer.validate, h1, h2, FILTERING_TERM_TYPE_JINJA2,
      FILTERING_TERM_TYPE_REGEX]
  · intro req d h
    have n1 : ¬ (("filtering_term" : String) = ("routing_regex")) := by decide
    have n2 : ¬ (("filtering_term_type" : String) = ("routing_regex")) := by decide
    have n3 : ¬ (("filtering_term" : String) = ("routing_type")) := by decide
    have n4 : ¬ (("filtering_term_type" : String) = ("routing_type")) := by decide
    obtain ⟨rt, rr⟩ := req
    cases rt with
    | none =>
      cases rr with
      | none =>
        simp only [routeInternalData, Except.ok.injEq] at h
        subst h
        exact ⟨rfl, rfl⟩
      | some s =>
        simp only [routeInternalData, Except.ok.injEq] at h
        subst h
        constructor <;> simp [getStrVal, getIntVal, lookupKV, n1, n3]
    | some label =>
      cases htv : RoutingTypeField.to_internal_value label with
      | error e =>
        simp only [routeInternalData, htv] at h
        cases h
      | ok code =>
        simp only [routeInternalData, htv] at h
        cases rr with
        | none =>
          simp only [Except.ok.injEq] at h
          subst h
          constructor <;> simp [getStrVal, getIntVal, lookupKV, n2, n4]
        | some s =>
          simp only [Except.ok.injEq] at h
          subst h
          constructor <;> simp [getStrVal, getIntVal, lookupKV, n1, n2, n3, n4]

/-- C5 witness: a concrete dict holding an invalid regular expression under
the source key, with validators that reject everything, is accepted. -/
theorem c5_witness :
    ChannelFilterSerializer.validate (fun _ => false) (fun _ => false)
        [(("filtering_term" : String), Val.str ("("))]
      = Except.ok [(("filtering_term" : String), Val.str ("("))] :=
  c5_match_expression_validation_never_fires.1 (fun _ => false) (fun _ => false)
    [(("filtering_term" : String), Val.str ("("))] (by decide) (by decide)

/-- C6 counterexample: a payload whose match_type is the unknown label
"incident" does not fail with ValidationError("expression type is
incorrect"); it fails with BadRequest("Invalid route type"), raised by
RoutingTypeField.to_internal_value during field deserialization. -/
theorem c6_counterexample :
    runRouteValidation (fun _ => true) (fun _ => true)
        { routing_type := some ("incident"), routing_regex := some ("x") }
      = Except.error (ApiError.badRequest ("Invalid route type"))
    ∧ ApiError.badRequest ("Invalid route type")
      ≠ ApiError.validationError [("expression type is incorrect")] := by
  exact ⟨by decide, by decide⟩

/-- C6 amended: a payload whose match_type is any value other than the
"regex" and "jinja2" labels fails with BadRequest("Invalid route type"),
raised by RoutingTypeField.to_internal_value before validate runs. -/
theorem c6_amended_invalid_route_type :
    ∀ (label : String), label ≠ ("regex") → label ≠ ("jinja2") →
    RoutingTypeField.to_internal_value label
        = Except.error (ApiError.badRequest ("Invalid route type"))
    ∧ ∀ (jinjaOk : Option String → Bool) (regexOk : String → Bool) (rr : Option String),
        runRouteValidation jinjaOk regexOk { routing_type := some label, routing_regex := rr }
          = Except.error (ApiError.badRequest ("Invalid route type")) := by
  intro label h1 h2
  have e1 : ((("regex" : String)) == label) = false :=
    beq_eq_false_iff_ne.mpr (fun h => h1 h.symm)
  have e2 : ((("jinja2" : String)) == label) = false :=
    beq_eq_false_iff_ne.mpr (fun h => h2 h.symm)
  have hv : RoutingTypeField.to_internal_value label
      = Except.error (ApiError.badRequest ("Invalid route type")) := by
    simp [RoutingTypeField.to_internal_value, FILTERING_TERM_TYPE_CHOICES, List.find?, e1, e2]
  refine ⟨hv, ?_⟩
  intro jinjaOk regexOk rr
  simp [runRouteValidation, routeInternalData, hv]

/-- C6 amended witness: the unknown label "acknowledged" is rejected with
BadRequest("Invalid route type"). -/
theorem c6_amended_witness :
    RoutingTypeField.to_internal_value ("acknowledged")
      = Except.error (ApiError.badRequest ("Invalid route type")) :=
  (c6_amended_invalid_route_type ("acknowledged") (by decide) (by decide)).1

/-- C7 counterexample: the cross-team failure carries the detail
"Escalation chain must be assigned to the same team as the integration"
(capital E), not the lowercase message quoted by the claim. -/
theorem c7_counterexample :
    validate_escalation_chain_id { team := some ("team_b") }
        (some { team := some ("team_a") })
      = Except.error (ApiError.badRequest
          ("Escalation chain must be assigned to the same team as the integration"))
    ∧ ("Escalation chain must be assigned to the same team as the integration" : String)
      ≠ ("escalation chain must be assigned to the same team as the integration") := by
  exact ⟨by decide, by decide⟩

/-- C7 amended: a non-null escalation chain whose team differs from the
integration's team is rejected with BadRequest("Escalation chain must be
assigned to the same team as the integration"); equal teams pass, and a
null value passes. -/
theorem c7_amended_team_check :
    ∀ (arc : AlertReceiveChannelRec) (chain : EscalationChain),
    (chain.team ≠ arc.team →
      validate_escalation_chain_id arc (some chain)
        = Except.error (ApiError.badRequest
            ("Escalation chain must be assigned to the same team as the integration")))
    ∧ (chain.team = arc.team →
      validate_escalation_chain_id arc (some chain) = Except.ok (some chain))
    ∧ validate_escalation_chain_id arc none = Except.ok none := by
  intro arc chain
  refine ⟨?_, ?_, rfl⟩
  · intro h
    simp [validate_escalation_chain_id, h]
  · intro h
    simp [validate_escalation_chain_id, h]

/-- C7 amended witness: a chain on the integration's own team passes. -/
theorem c7_amended_witness :
    validate_escalation_chain_id { team := some ("team_a") }
        (some { team := some ("team_a") })
      = Except.ok (some { team := some ("team_a") }) :=
  (c7_amended_team_check { team := some ("team_a") } { team := some ("team_a") }).2.1 rfl

theorem insertAt_zero {α : Type} (l : List α) (a : α) : insertAt 0 a l = a :: l := by
  cases l <;> rfl

theorem create_non_manual_order_idx (s : IntegrationRules) (i : Nat) (newId : String)
    (h : i ≤ s.rules.length) :
    (create_non_manual_order s (some (Int.ofNat i)) newId).rules = insertAt i newId s.rules := by
  have h1 : (max (Int.ofNat i) 0).toNat = i := by
    simp only [Int.ofNat_eq_coe]
    omega
  simp [create_non_manual_order, h1, Nat.min_eq_left h]

/-- C3: for a non-manual-order create, a supplied position is an insertion
index among the non-catch-all siblings: the new rule lands at that index,
earlier siblings keep their positions, siblings at or after the index are
shifted by +1, an out-of-bounds index is clamped (to the end upward, to 0
downward), an omitted position appends at the end, the rule count grows by
one with positions staying unique (positions are list indices), the
catch-all is untouched, and the concrete 3-rule example places the new rule
first with the others at positions 1, 2, 3 and the catch-all last.
Modelled from the spec: the ordering mixin and datastore are not under
src/. -/
theorem c3_position_is_insertion_index :
    ∀ (s : IntegrationRules) (newId : String),
    (∀ i : Nat, i ≤ s.rules.length →
      (create_non_manual_order s (some (Int.ofNat i)) newId).rules.get? i = some newId
      ∧ (∀ j : Nat, j < i →
          (create_non_manual_order s (some (Int.ofNat i)) newId).rules.get? j = s.rules.get? j)
      ∧ (∀ j : Nat, i ≤ j →
          (create_non_manual_order s (some (Int.ofNat i)) newId).rules.get? (j + 1) = s.rules.get? j))
    ∧ (∀ p : Int, Int.ofNat s.rules.length ≤ p →
        (create_non_manual_order s (some p) newId).rules = s.rules ++ [newId])
    ∧ (∀ p : Int, p ≤ 0 →
        (create_non_manual_order s (some p) newId).rules = newId :: s.rules)
    ∧ ((create_non_manual_order s none newId).rules = s.rules ++ [newId])
    ∧ (∀ p : Option Int,
        (create_non_manual_order s p newId).rules.length = s.rules.length + 1
        ∧ (create_non_manual_order s p newId).catchAll = s.catchAll)
    ∧ ((create_non_manual_order
          { rules := [("r1" : String), ("r2"), ("r3")], catchAll := ("catch") }
          (some 0) ("new")).fullOrder
        = [("new" : String), ("r1"), ("r2"), ("r3"), ("catch")]) := by
  intro s newId
  refine ⟨?_, ?_, ?_, ?_, ?_, by decide⟩
  · intro i hi
    rw [create_non_manual_order_idx s i newId hi]
    exact ⟨insertAt_get_self _ _ _ hi,
      fun j hj => insertAt_get_lt _ _ _ _ hj hi,
      fun j hj => insertAt_get_ge _ _ _ _ hj⟩
  · intro p hp
    simp only [Int.ofNat_eq_coe] at hp
    have h1 : min (max p 0).toNat s.rules.length = s.rules.length := by omega
    simp only [create_non_manual_order, h1]
    exact insertAt_of_length_le _ _ _ (le_refl _)
  · intro p hp
    have h1 : min (max p 0).toNat s.rules.length = 0 := by omega
    simp only [create_non_manual_order, h1]
    exact insertAt_zero _ _
  · have h1 : min (max (Int.ofNat s.rules.length) 0).toNat s.rules.length
        = s.rules.length := by
      simp only [Int.ofNat_eq_coe]
      omega
    simp only [create_non_manual_order, h1]
    exact insertAt_of_length_le _ _ _ (le_refl _)
  · intro p
    cases p with
    | none =>
      constructor
      · simp [create_non_manual_order, insertAt_length]
      · rfl
    | some q =>
      constructor
      · simp [create_non_manual_order, insertAt_length]
      · rfl

/-- C3 witness: creating at position 0 next to three existing rules puts
the new rule at position 0. -/
theorem c3_witness :
    (create_non_manual_order
        { rules := [("a" : String), ("b"), ("c")], catchAll := ("ca") }
        (some (Int.ofNat 0)) ("n")).rules.get? 0 = some ("n") :=
  ((c3_position_is_insertion_index
      { rules := [("a" : String), ("b"), ("c")], catchAll := ("ca") } ("n")).1
    0 (by decide)).1

/-- C4: a manual-order create whose position equals an existing sibling's
position fails with a ValidationError and leaves the store exactly as it
was (no new rule, no mutated rule). Modelled from the spec: the
manual-order validation of the ordering mixin is not under src/. -/
theorem c4_manual_order_collision_rejected :
    ∀ (s : OrderedRules) (p : Int) (newId : String),
    p ∈ s.rules.map Prod.snd →
    (create_manual_order_step s p newId).1 = s
    ∧ (∃ msgs, (create_manual_order_step s p newId).2
        = some (ApiError.validationError msgs)) := by
  intro s p newId h
  have hc : (s.rules.map Prod.snd).contains p = true := by
    simpa using h
  have hv : validate_manual_order (s.rules.map Prod.snd) (some p)
      = Except.error (ApiError.validationError
          [("Position collides with an existing rule of the integration")]) := by
    show (if (s.rules.map Prod.snd).contains p = true then
        Except.error (ApiError.validationError
          [("Position collides with an existing rule of the integration")])
      else Except.ok ())
      = Except.error (ApiError.validationError
          [("Position collides with an existing rule of the integration")])
    rw [if_pos hc]
  have hstep : create_manual_order_step s p newId
      = (s, some (ApiError.validationError
          [("Position collides with an existing rule of the integration")])) := by
    unfold create_manual_order_step create_manual_order
    rw [hv]
  exact ⟨by rw [hstep],
    ⟨[("Position collides with an existing rule of the integration")], by rw [hstep]⟩⟩

/-- C4 witness: creating with manual position 2 when a sibling already has
position 2 rejects the write and keeps the store unchanged. -/
theorem c4_witness :
    (create_manual_order_step
        { rules := [(("a" : String), (2 : Int))], catchAll := ("ca") } 2 ("b")).1
      = { rules := [(("a" : String), (2 : Int))], catchAll := ("ca") }
    ∧ ∃ msgs, (create_manual_order_step
        { rules := [(("a" : String), (2 : Int))], catchAll := ("ca") } 2 ("b")).2
      = some (ApiError.validationError msgs) :=
  c4_manual_order_collision_rejected
    { rules := [(("a" : String), (2 : Int))], catchAll := ("ca") } 2 ("b") (by decide)

/-- C8: an update through DefaultChannelFilterSerializer (the serializer
used for the catch-all rule) can only change the escalation chain and the
notification-channel configuration: its field set contains no match, order
or default field, so the rule's match type, match expression, position and
catch-all status are unchanged by any successful update. -/
theorem c8_default_update_frame :
    ∀ (reg : BackendRegistry) (cachedChannels connectors : List String)
      (inst : ChannelFilter) (d : DefaultUpdateData) (cf : ChannelFilter),
    DefaultChannelFilterSerializer.update reg cachedChannels connectors inst d
      = Except.ok cf →
    cf.filtering_term_type = inst.filtering_term_type
    ∧ cf.filtering_term = inst.filtering_term
    ∧ cf.order = inst.order
    ∧ cf.is_default = inst.is_default := by
  intro reg cachedChannels connectors inst d cf h
  unfold DefaultChannelFilterSerializer.update at h
  cases hc : correct_validated_data reg cachedChannels connectors d.payloads with
  | error e => rw [hc] at h; cases h
  | ok c =>
    rw [hc] at h
    simp only [Except.ok.injEq] at h
    subst h
    exact ⟨rfl, rfl, rfl, rfl⟩

/-- C8 witness: updating the escalation chain of a concrete catch-all rule
leaves match type, expression, position and default status untouched. -/
theorem c8_witness :
    DefaultChannelFilterSerializer.update [] [] [] c8inst c8data = Except.ok c8out
    ∧ (c8out.filtering_term_type = c8inst.filtering_term_type
      ∧ c8out.filtering_term = c8inst.filtering_term
      ∧ c8out.order = c8inst.order
      ∧ c8out.is_default = c8inst.is_default) :=
  ⟨by decide, c8_default_update_frame [] [] [] c8inst c8data c8out (by decide)⟩

theorem update_notification_backends_map_fst (reg : BackendRegistry)
    (current incoming : List (String × NotificationBackendData)) :
    (update_notification_backends reg current incoming).map Prod.fst
      = incoming.map Prod.fst :=
  map_fst_map_entry incoming (fun k v => mergeBackendEntry reg current k v)

theorem lookupKV_update_notification_backends (reg : BackendRegistry)
    (current incoming : List (String × NotificationBackendData)) (k : String) :
    lookupKV (update_notification_backends reg current incoming) k
      = (lookupKV incoming k).map (mergeBackendEntry reg current k) :=
  lookupKV_map_entry incoming (fun k v => mergeBackendEntry reg current k v) k

theorem default_update_nb_inv (reg : BackendRegistry)
    (cachedChannels connectors : List String) (inst : ChannelFilter)
    (d : DefaultUpdateData) (cf : ChannelFilter)
    (h : DefaultChannelFilterSerializer.update reg cachedChannels connectors inst d
      = Except.ok cf) :
    ∃ c, correct_validated_data reg cachedChannels connectors d.payloads = Except.ok c
      ∧ cf.notification_backends =
        (match (if truthyNB c.notification_backends then
            some (update_notification_backends reg
              ((inst.notification_backends).getD [])
              ((c.notification_backends).getD []))
          else c.notification_backends) with
        | some l => some l
        | none => inst.notification_backends) := by
  unfold DefaultChannelFilterSerializer.update at h
  cases hc : correct_validated_data reg cachedChannels connectors d.payloads with
  | error e => rw [hc] at h; cases h
  | ok c =>
    rw [hc] at h
    simp only [Except.ok.injEq] at h
    subst h
    exact ⟨c, rfl, rfl⟩

/-- C1 counterexample: updating a rule whose stored notification_backends
holds configuration for BID_A with a request that mentions only backend_b
succeeds and drops BID_A from the stored mapping entirely, so a backend
absent from the request does not keep its prior stored sub-object. -/
theorem c1_counterexample :
    lookupKV ((c1inst.notification_backends).getD []) ("BID_A")
      = some { channel := some (some ("XA")), enabled := some true }
    ∧ (ChannelFilterUpdateSerializer.update c1reg [] [] [] 0 c1inst c1data).map
        (fun cf => lookupKV ((cf.notification_backends).getD []) ("BID_A"))
      = Except.ok none := by
  exact ⟨by decide, by decide⟩

/-- C1 amended: on update (both ChannelFilterUpdateSerializer and
DefaultChannelFilterSerializer), the stored notification_backends mapping
is written back wholesale: when the request mentions no recognized backend
(no nonempty sub-payload for a registered slug) the stored mapping is left
untouched, and when it mentions at least one, the stored mapping is
replaced by the request's merged entries, so every backend id not
mentioned in the request disappears from the stored mapping. -/
theorem c1_amended_replacement_semantics :
    (∀ (reg : BackendRegistry) (cachedChannels connectors : List String)
       (siblingPositions : List Int) (siblingCount : Nat)
       (inst : ChannelFilter) (d : UpdateData) (cf : ChannelFilter),
      ChannelFilterUpdateSerializer.update reg cachedChannels connectors
          siblingPositions siblingCount inst d = Except.ok cf →
      (mentionedBackendIds reg d.payloads.backends = [] →
        cf.notification_backends = inst.notification_backends)
      ∧ (∀ bid : String, mentionedBackendIds reg d.payloads.backends ≠ [] →
        bid ∉ mentionedBackendIds reg d.payloads.backends →
        lookupKV ((cf.notification_backends).getD []) bid = none))
    ∧ (∀ (reg : BackendRegistry) (cachedChannels connectors : List String)
       (inst : ChannelFilter) (d : DefaultUpdateData) (cf : ChannelFilter),
      DefaultChannelFilterSerializer.update reg cachedChannels connectors inst d
        = Except.ok cf →
      (mentionedBackendIds reg d.payloads.backends = [] →
        cf.notification_backends = inst.notification_backends)
      ∧ (∀ bid : String, mentionedBackendIds reg d.payloads.backends ≠ [] →
        bid ∉ mentionedBackendIds reg d.payloads.backends →
        lookupKV ((cf.notification_backends).getD []) bid = none)) := by
  constructor
  · intro reg cachedChannels connectors sib cnt inst d cf h
    obtain ⟨c, hc, hcf⟩ :=
      channel_filter_update_ok_inv reg cachedChannels connectors sib cnt inst d cf h
    obtain ⟨sc, tc, nbs, hs, ht, hnb, hceq⟩ :=
      correct_validated_data_ok_inv reg cachedChannels connectors d.payloads c hc
    have hkeys := collectBackends_keys reg d.payloads.backends nbs hnb
    subst hceq
    subst hcf
    constructor
    · intro hm
      have hnil : nbs = [] := List.map_eq_nil_iff.mp (hkeys.trans hm)
      subst hnil
      rfl
    · intro bid hne hnotin
      have hnbs : nbs ≠ [] := fun hnil => hne ((hnil ▸ hkeys).symm)
      obtain ⟨n0, ns, rfl⟩ := List.exists_cons_of_ne_nil hnbs
      show lookupKV (update_notification_backends reg
        ((inst.notification_backends).getD []) (n0 :: ns)) bid = none
      apply lookupKV_eq_none_of_not_mem
      rw [update_notification_backends_map_fst, hkeys]
      exact hnotin
  · intro reg cachedChannels connectors inst d cf h
    obtain ⟨c, hc, hnbproj⟩ :=
      default_update_nb_inv reg cachedChannels connectors inst d cf h
    obtain ⟨sc, tc, nbs, hs, ht, hnb, hceq⟩ :=
      correct_validated_data_ok_inv reg cachedChannels connectors d.payloads c hc
    have hkeys := collectBackends_keys reg d.payloads.backends nbs hnb
    subst hceq
    constructor
    · intro hm
      have hnil : nbs = [] := List.map_eq_nil_iff.mp (hkeys.trans hm)
      subst hnil
      exact hnbproj
    · intro bid hne hnotin
      have hnbs : nbs ≠ [] := fun hnil => hne ((hnil ▸ hkeys).symm)
      obtain ⟨n0, ns, rfl⟩ := List.exists_cons_of_ne_nil hnbs
      have hcf2 : cf.notification_backends
          = some (update_notification_backends reg
            ((inst.notification_backends).getD []) (n0 :: ns)) := hnbproj
      rw [hcf2]
      show lookupKV (update_notification_backends reg
        ((inst.notification_backends).getD []) (n0 :: ns)) bid = none
      apply lookupKV_eq_none_of_not_mem
      rw [update_notification_backends_map_fst, hkeys]
      exact hnotin

/-- C1 amended witness: the concrete drop of BID_A derived through the
amended theorem. -/
theorem c1_amended_witness :
    lookupKV ((c1out.notification_backends).getD []) ("BID_A") = none :=
  ((c1_amended_replacement_semantics).1 c1reg [] [] [] 0 c1inst c1data c1out
    (by decide)).2 ("BID_A") (by decide) (by decide)

/-- C2: the per-backend merge on update is key-level. For a registered
backend whose slug carries a nonempty sub-payload, the stored sub-object
after a successful update is the prior stored sub-object united under the
request's keys (supplied keys override, unsupplied keys keep their prior
values). For the first-class slack backend, a request that supplies no
channel_id key leaves the stored slack_channel_id column untouched and a
supplied enabled key writes only notify_in_slack. -/
theorem c2_update_merge_is_key_level :
    (∀ (reg : BackendRegistry) (cachedChannels connectors : List String)
       (siblingPositions : List Int) (siblingCount : Nat)
       (inst : ChannelFilter) (d : UpdateData) (cf : ChannelFilter)
       (bid : String) (b : Backend) (f : BackendField),
      (reg.map Prod.fst).Nodup →
      (bid, some b) ∈ reg →
      lookupKV d.payloads.backends b.slug = some f →
      f.isEmpty = false →
      ChannelFilterUpdateSerializer.update reg cachedChannels connectors
          siblingPositions siblingCount inst d = Except.ok cf →
      lookupKV ((cf.notification_backends).getD []) bid
        = some (NotificationBackendData.union
            ((lookupKV ((inst.notification_backends).getD []) bid).getD emptyNBData)
            { channel := f.id, enabled := f.enabled }))
    ∧ (∀ (reg : BackendRegistry) (cachedChannels connectors : List String)
       (siblingPositions : List Int) (siblingCount : Nat)
       (inst : ChannelFilter) (d : UpdateData) (cf : ChannelFilter)
       (f : SlackField),
      d.payloads.slack = some f →
      f.channel_id = none →
      ChannelFilterUpdateSerializer.update reg cachedChannels connectors
          siblingPositions siblingCount inst d = Except.ok cf →
      cf.slack_channel_id = inst.slack_channel_id
      ∧ ∀ en : Bool, f.enabled = some en → cf.notify_in_slack = en) := by
  constructor
  · intro reg cachedChannels connectors sib cnt inst d cf bid b f hnd hmem hlk hne h
    obtain ⟨c, hc, hcf⟩ :=
      channel_filter_update_ok_inv reg cachedChannels connectors sib cnt inst d cf h
    obtain ⟨sc, tc, nbs, hs, ht, hnb, hceq⟩ :=
      correct_validated_data_ok_inv reg cachedChannels connectors d.payloads c hc
    have hentry := collectBackends_entry reg d.payloads.backends bid b f nbs hnd hmem hlk hne hnb
    subst hceq
    subst hcf
    cases nbs with
    | nil => exact Option.noConfusion hentry
    | cons n0 ns =>
      show lookupKV (update_notification_backends reg
        ((inst.notification_backends).getD []) (n0 :: ns)) bid
        = some (NotificationBackendData.union
            ((lookupKV ((inst.notification_backends).getD []) bid).getD emptyNBData)
            { channel := f.id, enabled := f.enabled })
      rw [lookupKV_update_notification_backends, hentry]
      have hreg : lookupKV reg bid = some (some b) :=
        lookupKV_eq_some_of_mem_nodup reg bid (some b) hnd hmem
      simp [mergeBackendEntry, get_messaging_backend_from_id, hreg]
  · intro reg cachedChannels connectors sib cnt inst d cf f hf hcid h
    obtain ⟨c, hc, hcf⟩ :=
      channel_filter_update_ok_inv reg cachedChannels connectors sib cnt inst d cf h
    obtain ⟨sc, tc, nbs, hs, ht, hnb, hceq⟩ :=
      correct_validated_data_ok_inv reg cachedChannels connectors d.payloads c hc
    rw [hf] at hs
    obtain ⟨fcid, fen⟩ := f
    simp only at hcid
    subst hcid
    rw [slackCorrection_channel_id_absent] at hs
    have hsc : sc = (none, fen) := (Except.ok.inj hs).symm
    subst hsc
    subst hceq
    subst hcf
    refine ⟨rfl, fun en hen => ?_⟩
    have hen2 : fen = some en := hen
    show Option.getD fen inst.notify_in_slack = en
    rw [hen2]
    rfl

/-- C2 witness: updating only slack.enabled = false on a rule whose slack
channel id is "C123" keeps the channel id and flips only the flag. -/
theorem c2_witness :
    c2out.slack_channel_id = c2inst.slack_channel_id
    ∧ c2out.notify_in_slack = false :=
  have hp := (c2_update_merge_is_key_level).2 [] [] [] [] 0 c2inst c2data c2out
    { channel_id := none, enabled := some false } (by decide) (by decide) (by decide)
  ⟨hp.1, hp.2 false (by decide)⟩

/-- C9: a non-null slack channel id is uppercased before lookup and before
storage. First conjunct: the validator itself returns the uppercased id
when the uppercased id is among the organization's cached channels and
raises BadRequest otherwise (so existence is checked against the uppercased
id). Second conjunct: after a successful update whose slack sub-payload
supplies a channel id, the persisted slack_channel_id equals the uppercase
form of the input and the uppercased id was found in the cached channels. -/
theorem c9_slack_channel_id_uppercased :
    (∀ (cachedChannels : List String) (s : String),
      validate_slack_channel_id cachedChannels (some s)
        = (if cachedChannels.contains (strUpper s) then Except.ok (some (strUpper s))
           else Except.error (ApiError.badRequest ("Slack channel does not exist"))))
    ∧ (∀ (reg : BackendRegistry) (cachedChannels connectors : List String)
       (siblingPositions : List Int) (siblingCount : Nat)
       (inst : ChannelFilter) (d : UpdateData) (cf : ChannelFilter)
       (f : SlackField) (s : String),
      d.payloads.slack = some f →
      f.channel_id = some (some s) →
      ChannelFilterUpdateSerializer.update reg cachedChannels connectors
          siblingPositions siblingCount inst d = Except.ok cf →
      cf.slack_channel_id = some (strUpper s)
      ∧ cachedChannels.contains (strUpper s) = true) := by
  constructor
  · intro cachedChannels s
    rfl
  · intro reg cachedChannels connectors sib cnt inst d cf f s hf hcid h
    obtain ⟨c, hc, hcf⟩ :=
      channel_filter_update_ok_inv reg cachedChannels connectors sib cnt inst d cf h
    obtain ⟨sc, tc, nbs, hs, ht, hnb, hceq⟩ :=
      correct_validated_data_ok_inv reg cachedChannels connectors d.payloads c hc
    rw [hf] at hs
    obtain ⟨fcid, fen⟩ := f
    have hcid2 : fcid = some (some s) := hcid
    subst hcid2
    have hsc0 : slackCorrection cachedChannels
        (some { channel_id := some (some s), enabled := fen })
        = (match validate_slack_channel_id cachedChannels (some s) with
          | Except.error e => Except.error e
          | Except.ok r => Except.ok (some r, fen)) := rfl
    rw [hsc0] at hs
    cases hcon : cachedChannels.contains (strUpper s) with
    | false =>
      have hv : validate_slack_channel_id cachedChannels (some s)
          = Except.error (ApiError.badRequest ("Slack channel does not exist")) := by
        show (if cachedChannels.contains (strUpper s) = true then Except.ok (some (strUpper s))
          else Except.error (ApiError.badRequest ("Slack channel does not exist")))
          = Except.error (ApiError.badRequest ("Slack channel does not exist"))
        rw [hcon]
        rfl
      rw [hv] at hs
      cases hs
    | true =>
      have hv : validate_slack_channel_id cachedChannels (some s)
          = Except.ok (some (strUpper s)) := by
        show (if cachedChannels.contains (strUpper s) = true then Except.ok (some (strUpper s))
          else Except.error (ApiError.badRequest ("Slack channel does not exist")))
          = Except.ok (some (strUpper s))
        rw [hcon]
        rfl
      rw [hv] at hs
      have hsc : sc = (some (some (strUpper s)), fen) := (Except.ok.inj hs).symm
      subst hsc
      subst hceq
      subst hcf
      exact ⟨rfl, rfl⟩

/-- C9 witness: sending slack channel_id "c123" against cached channels
containing "C123" stores "C123". -/
theorem c9_witness :
    c9out.slack_channel_id = some (strUpper ("c123"))
    ∧ (["C123"] : List String).contains (strUpper ("c123")) = true :=
  (c9_slack_channel_id_uppercased).2 [] (["C123"]) [] [] 0 c9inst c9data c9out
    { channel_id := some (some ("c123")), enabled := none } ("c123")
    (by decide) (by decide) (by decide)

theorem lookupKV_removeSlug_self (slug : String) (bfs : List (String × BackendField)) :
    lookupKV (removeSlug slug bfs) slug = none := by
  induction bfs with
  | nil => rfl
  | cons e rest ih =>
    obtain ⟨k, v⟩ := e
    by_cases hk : k = slug
    · subst hk
      simpa [removeSlug, List.filter_cons] using ih
    · have hb : (!(k == slug)) = true := by simp [hk]
      simp only [removeSlug, List.filter_cons, hb, if_pos]
      simp only [lookupKV, if_neg hk]
      simpa [removeSlug] using ih

theorem lookupKV_removeSlug_ne (slug k : String) (h : k ≠ slug)
    (bfs : List (String × BackendField)) :
    lookupKV (removeSlug slug bfs) k = lookupKV bfs k := by
  induction bfs with
  | nil => rfl
  | cons e rest ih =>
    obtain ⟨k2, v⟩ := e
    by_cases hk : k2 = slug
    · subst hk
      have hne : ¬ k2 = k := fun he => h he.symm
      simp only [removeSlug, List.filter_cons]
      simp only [beq_self_eq_true, Bool.not_true, Bool.false_eq_true, if_neg,
        not_false_eq_true]
      simp only [lookupKV, if_neg hne]
      simpa [removeSlug] using ih
    · have hb : (!(k2 == slug)) = true := by simp [hk]
      simp only [removeSlug, List.filter_cons, hb, if_pos]
      by_cases hk2 : k2 = k
      · simp only [lookupKV, if_pos hk2]
      · simp only [lookupKV, if_neg hk2]
        simpa [removeSlug] using ih

theorem collectBackends_removeSlug (reg : BackendRegistry)
    (bfs : List (String × BackendField)) (slug : String) (f : BackendField)
    (hlk : lookupKV bfs slug = some f) (he : f.isEmpty = true) :
    collectBackends reg (removeSlug slug bfs) = collectBackends reg bfs := by
  induction reg with
  | nil => rfl
  | cons e rest ih =>
    obtain ⟨bid, ob⟩ := e
    cases ob with
    | none =>
      simp only [collectBackends]
      exact ih
    | some b =>
      by_cases hbs : b.slug = slug
      · have h1 : lookupKV (removeSlug slug bfs) b.slug = none := by
          rw [hbs]
          exact lookupKV_removeSlug_self slug bfs
        have h2 : lookupKV bfs b.slug = some f := by
          rw [hbs]
          exact hlk
        simp only [collectBackends, h1, h2, if_pos he]
        exact ih
      · have h1 : lookupKV (removeSlug slug bfs) b.slug = lookupKV bfs b.slug :=
          lookupKV_removeSlug_ne slug b.slug hbs bfs
        cases hlk2 : lookupKV bfs b.slug with
        | none =>
          simp only [collectBackends, h1, hlk2]
          exact ih
        | some f2 =>
          by_cases he2 : f2.isEmpty = true
          · simp only [collectBackends, h1, hlk2, if_pos he2]
            exact ih
          · simp only [collectBackends, h1, hlk2, if_neg he2]
            cases hv : b.validate_channel_filter_data
                { channel := f2.id, enabled := f2.enabled } with
            | some e2 => rfl
            | none => rw [ih]

/-- C10 counterexample: a request supplying backend_a as an empty object
alongside a nonempty backend_b sub-payload succeeds, yet the stored
configuration for BID_A (the backend whose sub-payload was the empty
object) is dropped by the whole-mapping replacement, so the empty
sub-payload does not leave that backend's stored configuration unchanged. -/
theorem c10_counterexample :
    lookupKV ((c10inst.notification_backends).getD []) ("BID_A")
      = some { channel := some (some ("XA")), enabled := some true }
    ∧ lookupKV (c10data.payloads.backends) ("backend_a")
      = some { id := none, enabled := none }
    ∧ (ChannelFilterUpdateSerializer.update c10reg [] [] [] 0 c10inst c10data).map
        (fun cf => lookupKV ((cf.notification_backends).getD []) ("BID_A"))
      = Except.ok none := by
  exact ⟨by decide, by decide, by decide⟩

/-- C10 amended: an empty backend sub-payload is equivalent to omitting
the backend from the request: the validator is not invoked and no entry is
produced (the whole pipeline result, quantified over every registry and
hence every validator, equals the result for the request without that
slug), for generic backends, slack and telegram alike; the stored
configuration for that backend is therefore affected exactly as omission
would affect it (unchanged unless another mentioned backend triggers the
whole-mapping replacement). -/
theorem c10_amended_empty_payload_is_omission :
    (∀ (reg : BackendRegistry) (cachedChannels connectors : List String)
       (sl : Option SlackField) (tg : Option BackendField)
       (bfs : List (String × BackendField)) (slug : String) (f : BackendField),
      lookupKV bfs slug = some f → f.isEmpty = true →
      correct_validated_data reg cachedChannels connectors
          { slack := sl, telegram := tg, backends := bfs }
        = correct_validated_data reg cachedChannels connectors
            { slack := sl, telegram := tg, backends := removeSlug slug bfs })
    ∧ (∀ (reg : BackendRegistry) (cachedChannels connectors : List String)
       (tg : Option BackendField) (bfs : List (String × BackendField)),
      correct_validated_data reg cachedChannels connectors
          { slack := some { channel_id := none, enabled := none }
            telegram := tg
            backends := bfs }
        = correct_validated_data reg cachedChannels connectors
            { slack := none, telegram := tg, backends := bfs })
    ∧ (∀ (reg : BackendRegistry) (cachedChannels connectors : List String)
       (sl : Option SlackField) (bfs : List (String × BackendField)),
      correct_validated_data reg cachedChannels connectors
          { slack := sl
            telegram := some { id := none, enabled := none }
            backends := bfs }
        = correct_validated_data reg cachedChannels connectors
            { slack := sl, telegram := none, backends := bfs })
    ∧ (∀ (reg : BackendRegistry) (cachedChannels connectors : List String)
       (siblingPositions : List Int) (siblingCount : Nat)
       (inst : ChannelFilter) (d : UpdateData) (slug : String) (f : BackendField),
      lookupKV d.payloads.backends slug = some f → f.isEmpty = true →
      ChannelFilterUpdateSerializer.update reg cachedChannels connectors
          siblingPositions siblingCount inst d
        = ChannelFilterUpdateSerializer.update reg cachedChannels connectors
            siblingPositions siblingCount inst
            { d with payloads :=
                { slack := d.payloads.slack
                  telegram := d.payloads.telegram
                  backends := removeSlug slug d.payloads.backends } }) := by
  have hcvd : ∀ (reg : BackendRegistry) (cachedChannels connectors : List String)
      (sl : Option SlackField) (tg : Option BackendField)
      (bfs : List (String × BackendField)) (slug : String) (f : BackendField),
      lookupKV bfs slug = some f → f.isEmpty = true →
      correct_validated_data reg cachedChannels connectors
          { slack := sl, telegram := tg, backends := bfs }
        = correct_validated_data reg cachedChannels connectors
            { slack := sl, telegram := tg, backends := removeSlug slug bfs } := by
    intro reg cachedChannels connectors sl tg bfs slug f hlk he
    unfold correct_validated_data
    rw [collectBackends_removeSlug reg bfs slug f hlk he]
  refine ⟨hcvd, fun reg cc con tg bfs => rfl, fun reg cc con sl bfs => rfl, ?_⟩
  intro reg cachedChannels connectors sib cnt inst d slug f hlk he
  have h2 := hcvd reg cachedChannels connectors d.payloads.slack d.payloads.telegram
    d.payloads.backends slug f hlk he
  unfold ChannelFilterUpdateSerializer.update
  rw [← h2]
  rfl

/-- C10 amended witness: a request whose only backend sub-payload is the
empty object for backend_a normalizes identically to the request with that
slug removed. -/
theorem c10_amended_witness :
    correct_validated_data c10reg [] []
        { slack := none, telegram := none,
          backends := [(("backend_a" : String), { id := none, enabled := none })] }
      = correct_validated_data c10reg [] []
          { slack := none, telegram := none,
            backends := removeSlug ("backend_a")
              [(("backend_a" : String), { id := none, enabled := none })] } :=
  (c10_amended_empty_payload_is_omission).1 c10reg [] [] none none
    [(("backend_a" : String), { id := none, enabled := none })] ("backend_a")
    { id := none, enabled := none } (by decide) (by decide)
